import Mathlib

/-!
Shallow embedding of `src/app.py` (AIzz Data Analyst): the data model, the
chart-selection helpers (`auto_chart`, `multi_graphs`, `map_chart`), the data
loader (`load_df`) and the orchestrating `pipeline`, together with theorems
settling the specification's claims about them.

Charts depend only on column names and dtypes, so a dataset is modelled as
its ordered list of columns, each tagged numeric / non-numeric (pandas'
`select_dtypes(include="number")` split). External effects (CSV parsing, the
LLM call, image rasterisation and document export) are modelled as oracle
functions packaged in `PipelineEnv`; a Python exception raised by an oracle
or by the script itself is an `Except.error`.
-/

set_option autoImplicit false

namespace AizzApp

/-- One dataframe column: its name and whether pandas classifies its dtype as
numeric (`select_dtypes(include="number")`). -/
structure Column where
  name : String
  isNumeric : Bool
deriving DecidableEq, Repr

/-- A dataset is its ordered list of columns (the chart helpers inspect only
names and dtypes). -/
abbrev Dataset := List Column

/-- Embeds `df.columns` as the list of names, in order. -/
def columns (df : Dataset) : List String := df.map Column.name

/-- Embeds `df.select_dtypes(include="number").columns.tolist()`. -/
def numericCols (df : Dataset) : List String :=
  (df.filter Column.isNumeric).map Column.name

/-- Embeds `df.select_dtypes(exclude="number").columns.tolist()`. -/
def nonNumericCols (df : Dataset) : List String :=
  (df.filter (fun c => !c.isNumeric)).map Column.name

/-- Embeds Python's `str.lower()` on one character, for the ASCII letters
that appear in the alias lists (uppercase A-Z maps to a-z, all else is
unchanged). -/
def lowerChar (c : Char) : Char :=
  if 65 ≤ c.toNat ∧ c.toNat ≤ 90 then Char.ofNat (c.toNat + 32) else c

/-- Embeds Python's `str.lower()` (`c.lower()` on column names). The alias
lists are pure ASCII, for which this agrees with Python. -/
def lower (s : String) : String := ⟨s.data.map lowerChar⟩

/-- The time-axis alias list of `auto_chart` (line 49):
`["tahun", "year", "date", "tarikh"]`. -/
def timeAliases : List String := ["tahun", "year", "date", "tarikh"]

/-- Embeds `time_like = [c for c in df.columns if c.lower() in [...]]` (line 49). -/
def timeLikeCols (df : Dataset) : List String :=
  (columns df).filter (fun c => timeAliases.contains (lower c))

/-- A chart figure, as far as the script determines it: kind, axes, title and
the chart-specific options the code sets. All figures additionally get the
dark `plotly_dark` template, which is uniform and not recorded per chart. -/
inductive Chart where
  /-- Placeholder `px.scatter(title=...)` with no data: the "no numeric data" chart. -/
  | placeholder (title : String)
  /-- Line `px.line(df, x, y, title, markers)`. -/
  | line (x y title : String) (markers : Bool)
  /-- Bar `px.bar(df, x, y, title, text)`. -/
  | bar (x y title : String) (textCol : String)
  /-- Scatter `px.scatter(df, x, y, title)`. -/
  | scatter (x y title : String)
  /-- World map `px.choropleth(df, locations, locationmode, color, ...)`. -/
  | worldChoropleth (locations locationmode color title : String)
  /-- Regional map `px.choropleth(df, geojson, featureidkey, locations, color, ...)` with
  `update_geos(fitbounds="locations")`. -/
  | regionalChoropleth (geojson featureidkey locations color title : String)
      (fitboundsLocations : Bool)
deriving DecidableEq, Repr

/-- Embeds `auto_chart(df)` (lines 41-58): placeholder when no numeric column,
else line-on-time-alias / bar-by-first-non-numeric / scatter, first match
wins. -/
def auto_chart (df : Dataset) : Chart :=
  match numericCols df with
  | [] => Chart.placeholder "⚠️ Tiada data numerik ditemui."
  | y :: _ =>
    match timeLikeCols df with
    | x :: _ => Chart.line x y (s!"Trend {y} mengikut {x}") true
    | [] =>
      match nonNumericCols df with
      | x :: _ => Chart.bar x y (s!"Perbandingan {y} mengikut {x}") y
      | [] =>
        let x0 := (columns df).headD ""
        Chart.scatter x0 y (s!"Hubungan {x0} vs {y}")

/-- Embeds `multi_graphs(df)` (lines 60-71): empty when no numeric column, else the
line/bar/scatter trio on (first column, first numeric column). -/
def multi_graphs (df : Dataset) : List Chart :=
  match numericCols df with
  | [] => []
  | y :: _ =>
    let x := (columns df).headD ""
    [Chart.line x y (s!"📈 Line Chart {y} vs {x}") true,
     Chart.bar x y (s!"📊 Bar Chart {y} vs {x}") y,
     Chart.scatter x y (s!"🔍 Scatter Plot {y} vs {x}")]

/-- The geography alias list of `map_chart` (line 74). -/
def geoAliases : List String :=
  ["negeri", "state", "daerah", "region", "country", "negara"]

/-- The aliases routed to the world choropleth (line 80). -/
def worldAliases : List String := ["country", "negara", "state"]

/-- Embeds `geo_cols = [c for c in df.columns if c.lower() in [...]]` (line 74). -/
def geoCols (df : Dataset) : List String :=
  (columns df).filter (fun c => geoAliases.contains (lower c))

/-- The fixed external boundary resource used for regional maps (line 85). -/
def malaysiaGeojson : String :=
  "https://raw.githubusercontent.com/sabapathy12/geojson-malaysia/master/malaysia-states.geojson"

/-- Embeds `map_chart(df)` (lines 73-94): `none` unless a geography-aliased column
and a numeric column both exist; world choropleth when the first geography
alias is country/negara/state, else the Malaysia-states regional
choropleth. -/
def map_chart (df : Dataset) : Option Chart :=
  match geoCols df, numericCols df with
  | [], _ => none
  | _ :: _, [] => none
  | geo :: _, val :: _ =>
    if worldAliases.contains (lower geo) then
      some (Chart.worldChoropleth geo "country names" val (s!"🌍 Peta Dunia: {val}"))
    else
      some (Chart.regionalChoropleth malaysiaGeojson "properties.name" geo val
        (s!"🗺️ Peta Malaysia: {val}") true)

/-- Embeds `[main]+figs+([mapfig] if mapfig else [])` (line 158). -/
def all_figs (df : Dataset) : List Chart :=
  auto_chart df :: (multi_graphs df ++ (map_chart df).toList)

/-- The oracles standing for the script's external effects. Each models the
corresponding Python call; `Except.error e` models that call raising an
exception whose string form is `e`. -/
structure PipelineEnv where
  /-- Models `pd.read_csv(file.name)` for the uploaded file. -/
  parseFile : String → Except String Dataset
  /-- Models `pd.read_csv(StringIO(text_data))`. -/
  parseText : String → Except String Dataset
  /-- Models `pd.read_csv(url)`. -/
  parseURL : String → Except String Dataset
  /-- Models `ask_ai(question, df_head)` (lines 25-36), the whole LLM round trip. -/
  askAI : String → String → Except String String
  /-- Models `save_images` + `export_pdf` + `export_docx` (lines 161-163), one try
  block in the source: given title, narrative and figures, yields the
  (pdf path, docx path) pair or the first exception raised. -/
  exportDocs : String → String → List Chart → Except String (String × String)
  /-- Models `df.head().to_string()`: opaque serialisation of the sample. -/
  dfHead : Dataset → String

/-- Embeds Python's `str.strip()` as used by `load_df`: drop leading and
trailing whitespace. -/
def strip (s : String) : String :=
  ⟨((s.data.dropWhile Char.isWhitespace).reverse.dropWhile Char.isWhitespace).reverse⟩

/-- Python truthiness of an optional string (`None` and `""` are falsy). -/
def truthy : Option String → Bool
  | none => false
  | some s => s ≠ ""

/-- Embeds `load_df(file, text_data, url)` (lines 137-141): file, then non-blank
pasted text, then non-blank URL, else `None`. A parse exception
propagates. -/
def load_df (env : PipelineEnv) (file textData url : Option String) :
    Except String (Option Dataset) :=
  match file with
  | some fname => (env.parseFile fname).map some
  | none =>
    if truthy textData && (strip (textData.getD "") ≠ "") then
      (env.parseText (textData.getD "")).map some
    else if truthy url && (strip (url.getD "") ≠ "") then
      (env.parseURL (url.getD "")).map some
    else
      Except.ok none

/-- The 8-slot result tuple returned to Gradio (line 168 and the early
returns at 146-148): primary chart, the three panel charts, the optional map
chart, the narrative/markdown text, and the two document paths. -/
structure ResultTuple where
  main : Option Chart
  fig1 : Option Chart
  fig2 : Option Chart
  fig3 : Option Chart
  mapfig : Option Chart
  explanation : String
  pdf : Option String
  docx : Option String
deriving DecidableEq, Repr

/-- Embeds `query or "Terangkan trend utama"` / `title or "📊 Laporan ..."`:
Python `or` with a string default. -/
def orDefault (s : Option String) (d : String) : String :=
  match s with
  | some t => if t = "" then d else t
  | none => d

def defaultQuery : String := "Terangkan trend utama"

def defaultTitle : String := "📊 Laporan AIzz Data Analyst"

/-- The export try/except (lines 160-166): on success keep the narrative and
both paths, on failure null the paths and append the failure note to the
narrative. Returns (narrative, pdf?, docx?). -/
def exportStage (res : Except String (String × String)) (expl : String) :
    String × Option String × Option String :=
  match res with
  | Except.ok (p, d) => (expl, some p, some d)
  | Except.error e => (expl ++ "\n⚠️ Gagal export: " ++ e, none, none)

/-- The narrative stage's outcome (the try/except of lines 150-153): the
service text on success, the placeholder embedding the error description on
failure. -/
def narrativeOf (res : Except String String) : String :=
  match res with
  | Except.ok t => t
  | Except.error e => "⚠️ Gagal AI: " ++ e

/-- The string form of the uncaught Python `IndexError` raised by `figs[0]`
on line 168 when the panel list is empty. -/
def indexErrorMsg : String := "IndexError: list index out of range"

/-- Embeds `pipeline(file, text_data, url, query, title)` (lines 143-168).
`Except.ok` is a normal return of the 8-tuple; `Except.error` is an
exception escaping to the caller, which happens exactly when line 168
indexes the empty panel list. -/
def pipeline (env : PipelineEnv) (file textData url query title : Option String) :
    Except String ResultTuple :=
  match load_df env file textData url with
  | Except.error e =>
      Except.ok ⟨none, none, none, none, none, "⚠️ Ralat baca data: " ++ e, none, none⟩
  | Except.ok none =>
      Except.ok ⟨none, none, none, none, none, "⚠️ Tiada data", none, none⟩
  | Except.ok (some df) =>
    let explanation :=
      match env.askAI (orDefault query defaultQuery) (env.dfHead df) with
      | Except.ok t => t
      | Except.error e => "⚠️ Gagal AI: " ++ e
    let main := auto_chart df
    let figs := multi_graphs df
    let mapfig := map_chart df
    let figsAll := main :: (figs ++ mapfig.toList)
    let ex := exportStage (env.exportDocs (orDefault title defaultTitle) explanation figsAll) explanation
    match figs with
    | [f1, f2, f3] =>
        Except.ok ⟨some main, some f1, some f2, some f3, mapfig, ex.1, ex.2.1, ex.2.2⟩
    | _ => Except.error indexErrorMsg

/-! ## Claims -/

/-- C2: for every dataset with zero numeric columns, `auto_chart` returns the
designated "no numeric data" placeholder chart, `multi_graphs` returns the
empty list, and `map_chart` returns `none`. -/
theorem noNumeric_outputs (df : Dataset) (h : numericCols df = []) :
    auto_chart df = Chart.placeholder "⚠️ Tiada data numerik ditemui." ∧
    multi_graphs df = [] ∧
    map_chart df = none := by
  refine ⟨?_, ?_, ?_⟩
  · simp only [auto_chart, h]
  · simp only [multi_graphs, h]
  · rcases hg : geoCols df with _ | ⟨g, gs⟩ <;> simp only [map_chart, h, hg]

/-- Witness for C2 at the dataset with columns name, city (both
non-numeric). -/
theorem noNumeric_outputs_witness :
    numericCols [⟨"name", false⟩, ⟨"city", false⟩] = [] ∧
    (auto_chart [⟨"name", false⟩, ⟨"city", false⟩] =
        Chart.placeholder "⚠️ Tiada data numerik ditemui." ∧
      multi_graphs [⟨"name", false⟩, ⟨"city", false⟩] = [] ∧
      map_chart [⟨"name", false⟩, ⟨"city", false⟩] = none) :=
  ⟨rfl, noNumeric_outputs [⟨"name", false⟩, ⟨"city", false⟩] rfl⟩

/-- C3: with at least one numeric column, `auto_chart` follows the ordered
first-match policy: line of the first numeric column against the first
time-aliased column with markers; else bar of the first numeric column by
the first non-numeric column; else scatter of the first column against the
first numeric column. -/
theorem auto_chart_first_match (df : Dataset) (y : String) (ys : List String)
    (hy : numericCols df = y :: ys) :
    (∀ x xs, timeLikeCols df = x :: xs →
        auto_chart df = Chart.line x y (s!"Trend {y} mengikut {x}") true) ∧
    (∀ x xs, timeLikeCols df = [] → nonNumericCols df = x :: xs →
        auto_chart df = Chart.bar x y (s!"Perbandingan {y} mengikut {x}") y) ∧
    (∀ x0 cs, timeLikeCols df = [] → nonNumericCols df = [] → columns df = x0 :: cs →
        auto_chart df = Chart.scatter x0 y (s!"Hubungan {x0} vs {y}")) := by
  refine ⟨?_, ?_, ?_⟩
  · intro x xs hx
    simp only [auto_chart, hy, hx]
  · intro x xs ht hx
    simp only [auto_chart, hy, ht, hx]
  · intro x0 cs ht hn hc
    simp only [auto_chart, hy, ht, hn, hc, List.headD_cons]

/-- Witness for C3 at the spec's scenario dataset with columns country
(non-numeric), gdp (numeric): the bar branch applies. -/
theorem auto_chart_first_match_witness :
    auto_chart [⟨"country", false⟩, ⟨"gdp", true⟩] =
      Chart.bar "country" "gdp" "Perbandingan gdp mengikut country" "gdp" :=
  (auto_chart_first_match [⟨"country", false⟩, ⟨"gdp", true⟩] "gdp" [] rfl).2.1
    "country" [] rfl rfl

/-- C4: the comparison panel is exactly the three charts line, bar, scatter,
in that order, on (first column, first numeric column), whenever a numeric
column exists, and empty otherwise — independent of the primary chart. -/
theorem multi_graphs_panel (df : Dataset) :
    (∀ y ys x0 cs, numericCols df = y :: ys → columns df = x0 :: cs →
        multi_graphs df =
          [Chart.line x0 y (s!"📈 Line Chart {y} vs {x0}") true,
           Chart.bar x0 y (s!"📊 Bar Chart {y} vs {x0}") y,
           Chart.scatter x0 y (s!"🔍 Scatter Plot {y} vs {x0}")]) ∧
    (numericCols df = [] → multi_graphs df = []) := by
  constructor
  · intro y ys x0 cs hy hc
    simp only [multi_graphs, hy, hc, List.headD_cons]
  · intro h
    simp only [multi_graphs, h]

/-- Witness for C4 at the spec's scenario dataset with columns year, sales
(both numeric) and at the all-non-numeric dataset with column name. -/
theorem multi_graphs_panel_witness :
    multi_graphs [⟨"year", true⟩, ⟨"sales", true⟩] =
      [Chart.line "year" "year" "📈 Line Chart year vs year" true,
       Chart.bar "year" "year" "📊 Bar Chart year vs year" "year",
       Chart.scatter "year" "year" "🔍 Scatter Plot year vs year"] ∧
    multi_graphs [⟨"name", false⟩] = [] :=
  ⟨(multi_graphs_panel [⟨"year", true⟩, ⟨"sales", true⟩]).1 "year" ["sales"]
      "year" ["sales"] rfl rfl,
   (multi_graphs_panel [⟨"name", false⟩]).2 rfl⟩

/-- C5: `map_chart` produces a chart if and only if the dataset has a
geography-aliased column and a numeric column; otherwise it returns `none`
(an omitted chart, not an error). -/
theorem map_chart_iff (df : Dataset) :
    (map_chart df).isSome = true ↔ (geoCols df ≠ [] ∧ numericCols df ≠ []) := by
  rcases hg : geoCols df with _ | ⟨g, gs⟩ <;>
    rcases hn : numericCols df with _ | ⟨v, vs⟩ <;>
      simp only [map_chart, hg, hn] <;> simp
  split <;> simp

/-- Witness for C5 at the dataset with columns country, gdp. -/
theorem map_chart_iff_witness :
    (map_chart [⟨"country", false⟩, ⟨"gdp", true⟩]).isSome = true :=
  (map_chart_iff [⟨"country", false⟩, ⟨"gdp", true⟩]).mpr
    ⟨by decide, by decide⟩

/-- C6: when the geographic chart is produced, the first matched geography
alias decides its kind: country/negara/state gives the world choropleth in
country-names mode; any other alias gives the regional choropleth against
the fixed Malaysia-states boundary resource, keyed by feature name and
cropped to the matched locations. -/
theorem map_chart_world_vs_regional (df : Dataset) (g v : String)
    (gs vs : List String)
    (hg : geoCols df = g :: gs) (hv : numericCols df = v :: vs) :
    (worldAliases.contains (lower g) = true →
        map_chart df =
          some (Chart.worldChoropleth g "country names" v (s!"🌍 Peta Dunia: {v}"))) ∧
    (worldAliases.contains (lower g) = false →
        map_chart df =
          some (Chart.regionalChoropleth malaysiaGeojson "properties.name" g v
            (s!"🗺️ Peta Malaysia: {v}") true)) := by
  constructor <;> intro hw <;> simp only [map_chart, hg, hv, hw] <;> simp

/-- Witness for C6: the country alias yields the world choropleth and the
Negeri alias yields the Malaysia regional choropleth. -/
theorem map_chart_world_vs_regional_witness :
    map_chart [⟨"country", false⟩, ⟨"gdp", true⟩] =
      some (Chart.worldChoropleth "country" "country names" "gdp" "🌍 Peta Dunia: gdp") ∧
    map_chart [⟨"Negeri", false⟩, ⟨"penduduk", true⟩] =
      some (Chart.regionalChoropleth malaysiaGeojson "properties.name" "Negeri"
        "penduduk" "🗺️ Peta Malaysia: penduduk" true) :=
  ⟨(map_chart_world_vs_regional [⟨"country", false⟩, ⟨"gdp", true⟩]
      "country" "gdp" [] [] rfl rfl).1 rfl,
   (map_chart_world_vs_regional [⟨"Negeri", false⟩, ⟨"penduduk", true⟩]
      "Negeri" "penduduk" [] [] rfl rfl).2 rfl⟩

/-- C10: with a time-aliased column and a numeric column present, the primary
chart is a line of the first numeric column against the first time-aliased
column — also when these are the same column, as the witness shows. -/
theorem time_axis_self_plot (df : Dataset) (x y : String)
    (xs ys : List String)
    (hx : timeLikeCols df = x :: xs) (hy : numericCols df = y :: ys) :
    auto_chart df = Chart.line x y (s!"Trend {y} mengikut {x}") true := by
  simp only [auto_chart, hy, hx]

/-! ## Concrete pipeline environments -/

/-- An environment whose oracles all succeed and whose file source parses to
the dataset with columns name, city — both non-numeric. -/
def envAllTextCols : PipelineEnv where
  parseFile := fun _ => Except.ok [⟨"name", false⟩, ⟨"city", false⟩]
  parseText := fun _ => Except.ok [⟨"name", false⟩, ⟨"city", false⟩]
  parseURL := fun _ => Except.ok [⟨"name", false⟩, ⟨"city", false⟩]
  askAI := fun _ _ => Except.ok "Data menunjukkan senarai nama dan bandar."
  exportDocs := fun _ _ _ => Except.ok ("/tmp/laporan.pdf", "/tmp/laporan.docx")
  dfHead := fun _ => "name city"

/-- A healthy environment with distinct datasets per source, to observe which
source the loader consults. -/
def envLoaderW : PipelineEnv where
  parseFile := fun _ => Except.ok [⟨"year", true⟩, ⟨"sales", true⟩]
  parseText := fun _ => Except.ok [⟨"country", false⟩, ⟨"gdp", true⟩]
  parseURL := fun _ => Except.error "HTTPError: 404"
  askAI := fun _ _ => Except.ok "Ringkasan."
  exportDocs := fun _ _ _ => Except.ok ("/tmp/laporan.pdf", "/tmp/laporan.docx")
  dfHead := fun _ => "sample"

/-- An environment whose LLM call fails while the file source parses to the
all-non-numeric dataset with columns name, city. -/
def envAiFailNoNum : PipelineEnv where
  parseFile := fun _ => Except.ok [⟨"name", false⟩, ⟨"city", false⟩]
  parseText := fun _ => Except.ok [⟨"name", false⟩, ⟨"city", false⟩]
  parseURL := fun _ => Except.ok [⟨"name", false⟩, ⟨"city", false⟩]
  askAI := fun _ _ => Except.error "Connection timeout"
  exportDocs := fun _ _ _ => Except.ok ("/tmp/laporan.pdf", "/tmp/laporan.docx")
  dfHead := fun _ => "name city"

/-- An environment whose LLM call fails while the file source parses to the
dataset with numeric columns year, sales. -/
def envAiFailNum : PipelineEnv where
  parseFile := fun _ => Except.ok [⟨"year", true⟩, ⟨"sales", true⟩]
  parseText := fun _ => Except.ok [⟨"year", true⟩, ⟨"sales", true⟩]
  parseURL := fun _ => Except.ok [⟨"year", true⟩, ⟨"sales", true⟩]
  askAI := fun _ _ => Except.error "Connection timeout"
  exportDocs := fun _ _ _ => Except.ok ("/tmp/laporan.pdf", "/tmp/laporan.docx")
  dfHead := fun _ => "year sales"

/-- An environment whose export step fails while the file source parses to
the all-non-numeric dataset with columns name, city. -/
def envExportFailNoNum : PipelineEnv where
  parseFile := fun _ => Except.ok [⟨"name", false⟩, ⟨"city", false⟩]
  parseText := fun _ => Except.ok [⟨"name", false⟩, ⟨"city", false⟩]
  parseURL := fun _ => Except.ok [⟨"name", false⟩, ⟨"city", false⟩]
  askAI := fun _ _ => Except.ok "Ringkasan data."
  exportDocs := fun _ _ _ => Except.error "Kaleido not installed"
  dfHead := fun _ => "name city"

/-- An environment whose export step fails while the file source parses to
the dataset with columns country (non-numeric), gdp (numeric). -/
def envExportFailNum : PipelineEnv where
  parseFile := fun _ => Except.ok [⟨"country", false⟩, ⟨"gdp", true⟩]
  parseText := fun _ => Except.ok [⟨"country", false⟩, ⟨"gdp", true⟩]
  parseURL := fun _ => Except.ok [⟨"country", false⟩, ⟨"gdp", true⟩]
  askAI := fun _ _ => Except.ok "Ringkasan data."
  exportDocs := fun _ _ _ => Except.error "Kaleido not installed"
  dfHead := fun _ => "country gdp"

/-- An environment where both the LLM call and the export step fail while
the file source parses to the dataset with columns country (non-numeric),
gdp (numeric). -/
def envAiExportFailNum : PipelineEnv where
  parseFile := fun _ => Except.ok [⟨"country", false⟩, ⟨"gdp", true⟩]
  parseText := fun _ => Except.ok [⟨"country", false⟩, ⟨"gdp", true⟩]
  parseURL := fun _ => Except.ok [⟨"country", false⟩, ⟨"gdp", true⟩]
  askAI := fun _ _ => Except.error "Connection timeout"
  exportDocs := fun _ _ _ => Except.error "Kaleido not installed"
  dfHead := fun _ => "country gdp"

/-- C1 (code bug): even with every oracle succeeding, a file whose dataset
has only non-numeric columns makes the pipeline raise instead of returning
the 8-slot tuple: the panel list is empty and `figs[0]` on line 168 raises
an IndexError that escapes to the caller with no user-visible message. -/
theorem pipeline_indexError_on_nonNumeric :
    envAllTextCols.parseFile "data.csv" =
        Except.ok [⟨"name", false⟩, ⟨"city", false⟩] ∧
    numericCols [⟨"name", false⟩, ⟨"city", false⟩] = [] ∧
    pipeline envAllTextCols (some "data.csv") none none none none =
      Except.error indexErrorMsg :=
  ⟨rfl, rfl, rfl⟩

/-- C7: the Data Loader parses the first non-empty source in the order
file > pasted text > URL, ignoring later sources even when present: a file
always wins, non-blank pasted text wins when no file is given, and the URL
is consulted when the file is absent and the pasted text blank. When all
three sources are absent or blank the pipeline ends at the load stage with
the "no data" message and every chart and document slot null. -/
theorem data_loader_priority (env : PipelineEnv) (fname t u : String)
    (textData url query title : Option String)
    (ht : strip t ≠ "") (hu : strip u ≠ "") :
    load_df env (some fname) textData url = (env.parseFile fname).map some ∧
    load_df env none (some t) url = (env.parseText t).map some ∧
    ((∀ s, textData = some s → strip s = "") →
      load_df env none textData (some u) = (env.parseURL u).map some) ∧
    ((∀ s, textData = some s → strip s = "") →
     (∀ s, url = some s → strip s = "") →
      load_df env none textData url = Except.ok none ∧
      pipeline env none textData url query title =
        Except.ok ⟨none, none, none, none, none, "⚠️ Tiada data", none, none⟩) := by
  have ht0 : t ≠ "" := by
    intro h
    rw [h] at ht
    exact ht rfl
  have hu0 : u ≠ "" := by
    intro h
    rw [h] at hu
    exact hu rfl
  refine ⟨rfl, ?_, ?_, ?_⟩
  · simp [load_df, truthy, ht0, ht]
  · intro hT
    rcases textData with _ | s
    · simp [load_df, truthy, hu0, hu]
    · have hs := hT s rfl
      simp [load_df, truthy, hs, hu0, hu]
  · intro hT hU
    have hload : load_df env none textData url = Except.ok none := by
      rcases textData with _ | s
      · rcases url with _ | v
        · rfl
        · have hv := hU v rfl
          simp [load_df, truthy, hv]
      · have hs := hT s rfl
        rcases url with _ | v
        · simp [load_df, truthy, hs]
        · have hv := hU v rfl
          simp [load_df, truthy, hs, hv]
    refine ⟨hload, ?_⟩
    simp only [pipeline, hload]

/-- Witness for C7: the file source wins over present pasted text and URL,
the pasted text wins over a present URL when no file is given, the URL is
consulted (its parse failure propagating) when the pasted text is blank, and
blank text with no URL yields the "no data" run with all chart and document
slots null. -/
theorem data_loader_priority_witness :
    (strip "a,b" ≠ "") ∧ (strip "http://x" ≠ "") ∧
    load_df envLoaderW (some "d.csv") (some "  ") (some "http://x") =
        (envLoaderW.parseFile "d.csv").map some ∧
    load_df envLoaderW none (some "a,b") (some "http://x") =
        (envLoaderW.parseText "a,b").map some ∧
    load_df envLoaderW none (some "  ") (some "http://x") =
        (envLoaderW.parseURL "http://x").map some ∧
    load_df envLoaderW none (some "  ") none = Except.ok none ∧
    pipeline envLoaderW none (some "  ") none none none =
      Except.ok ⟨none, none, none, none, none, "⚠️ Tiada data", none, none⟩ := by
  have hblank : ∀ s, (some "  " : Option String) = some s → strip s = "" := by
    intro s hs
    have h2 := Option.some.inj hs
    subst h2
    rfl
  have hA := data_loader_priority envLoaderW "d.csv" "a,b" "http://x"
    (some "  ") (some "http://x") none none (by decide) (by decide)
  have hB := data_loader_priority envLoaderW "d.csv" "a,b" "http://x"
    (some "  ") none none none (by decide) (by decide)
  have h4 := hB.2.2.2 hblank (fun s hs => nomatch hs)
  exact ⟨by decide, by decide, hA.1, hA.2.1, hA.2.2.1 hblank, h4.1, h4.2⟩

/-- C8 counterexample: a run whose narrative call fails and whose dataset
has no numeric column aborts with the uncaught IndexError of line 168, so no
narrative at all is returned to the caller, against the claim as stated. -/
theorem narrative_failure_cex :
    envAiFailNoNum.askAI "Terangkan trend utama" "name city" =
      Except.error "Connection timeout" ∧
    pipeline envAiFailNoNum (some "data.csv") none none none none =
      Except.error indexErrorMsg :=
  ⟨rfl, rfl⟩

/-- C8 (amended): in a run whose dataset has at least one numeric column —
so that the panel is the usual trio — a failing narrative call does not
abort the pipeline: the 8-slot tuple is returned, its narrative is the
placeholder embedding the error description, the charts are generated as
usual, and the export step runs with that placeholder narrative. -/
theorem narrative_failure_recovers (env : PipelineEnv) (fname e : String)
    (df : Dataset) (f1 f2 f3 : Chart) (query title : Option String)
    (hp : env.parseFile fname = Except.ok df)
    (hai : env.askAI (orDefault query defaultQuery) (env.dfHead df) =
      Except.error e)
    (hfigs : multi_graphs df = [f1, f2, f3]) :
    pipeline env (some fname) none none query title =
      Except.ok
        ⟨some (auto_chart df), some f1, some f2, some f3, map_chart df,
          (exportStage
            (env.exportDocs (orDefault title defaultTitle)
              ("⚠️ Gagal AI: " ++ e) (all_figs df))
            ("⚠️ Gagal AI: " ++ e)).1,
          (exportStage
            (env.exportDocs (orDefault title defaultTitle)
              ("⚠️ Gagal AI: " ++ e) (all_figs df))
            ("⚠️ Gagal AI: " ++ e)).2.1,
          (exportStage
            (env.exportDocs (orDefault title defaultTitle)
              ("⚠️ Gagal AI: " ++ e) (all_figs df))
            ("⚠️ Gagal AI: " ++ e)).2.2⟩ := by
  simp only [all_figs, hfigs]
  simp only [pipeline, load_df, hp, Except.map, hai, hfigs]

/-- Witness for C8: with the year, sales dataset and a failing LLM call, the
full tuple comes back with the placeholder narrative and both documents. -/
theorem narrative_failure_recovers_witness :
    pipeline envAiFailNum (some "d.csv") none none none none =
      Except.ok
        ⟨some (Chart.line "year" "year" "Trend year mengikut year" true),
          some (Chart.line "year" "year" "📈 Line Chart year vs year" true),
          some (Chart.bar "year" "year" "📊 Bar Chart year vs year" "year"),
          some (Chart.scatter "year" "year" "🔍 Scatter Plot year vs year"),
          none, "⚠️ Gagal AI: Connection timeout",
          some "/tmp/laporan.pdf", some "/tmp/laporan.docx"⟩ :=
  narrative_failure_recovers envAiFailNum "d.csv" "Connection timeout"
    [⟨"year", true⟩, ⟨"sales", true⟩]
    (Chart.line "year" "year" "📈 Line Chart year vs year" true)
    (Chart.bar "year" "year" "📊 Bar Chart year vs year" "year")
    (Chart.scatter "year" "year" "🔍 Scatter Plot year vs year")
    none none rfl rfl rfl

/-- C9 counterexample: a run whose export step fails and whose dataset has
no numeric column aborts with the uncaught IndexError of line 168, so no
tuple with nulled document slots is returned, against the claim as
stated. -/
theorem export_failure_cex :
    envExportFailNoNum.exportDocs defaultTitle "Ringkasan data."
        (all_figs [⟨"name", false⟩, ⟨"city", false⟩]) =
      Except.error "Kaleido not installed" ∧
    pipeline envExportFailNoNum (some "data.csv") none none none none =
      Except.error indexErrorMsg :=
  ⟨rfl, rfl⟩

/-- C9 (amended): in a run whose dataset has at least one numeric column —
so that the panel is the usual trio — an export failure yields the 8-slot
tuple with both document slots null, the narrative of the run (the service
text, or the placeholder if the narrative call also failed) annotated with
the failure description, and the already-produced charts (primary, panel,
optional map) returned unchanged. -/
theorem export_failure_partial (env : PipelineEnv) (fname e : String)
    (df : Dataset) (f1 f2 f3 : Chart) (query title : Option String)
    (hp : env.parseFile fname = Except.ok df)
    (hfigs : multi_graphs df = [f1, f2, f3])
    (hex : env.exportDocs (orDefault title defaultTitle)
        (narrativeOf (env.askAI (orDefault query defaultQuery) (env.dfHead df)))
        (all_figs df) = Except.error e) :
    pipeline env (some fname) none none query title =
      Except.ok ⟨some (auto_chart df), some f1, some f2, some f3, map_chart df,
        narrativeOf (env.askAI (orDefault query defaultQuery) (env.dfHead df)) ++
          "\n⚠️ Gagal export: " ++ e,
        none, none⟩ := by
  simp only [all_figs, hfigs] at hex
  rcases hai : env.askAI (orDefault query defaultQuery) (env.dfHead df) with ea | t <;>
    rw [hai] at hex <;>
    simp only [narrativeOf] at hex ⊢ <;>
    simp only [pipeline, load_df, hp, Except.map, hai, hfigs, hex, exportStage]

/-- Witness for C9, twice over the country, gdp dataset with a failing
export: once with the narrative call succeeding — the charts including the
world choropleth come back, the document slots are null and the narrative
carries the export failure note — and once with the narrative call failing
too, where the placeholder narrative carries the export failure note. -/
theorem export_failure_partial_witness :
    (pipeline envExportFailNum (some "d.csv") none none none none =
      Except.ok
        ⟨some (Chart.bar "country" "gdp" "Perbandingan gdp mengikut country" "gdp"),
          some (Chart.line "country" "gdp" "📈 Line Chart gdp vs country" true),
          some (Chart.bar "country" "gdp" "📊 Bar Chart gdp vs country" "gdp"),
          some (Chart.scatter "country" "gdp" "🔍 Scatter Plot gdp vs country"),
          some (Chart.worldChoropleth "country" "country names" "gdp" "🌍 Peta Dunia: gdp"),
          "Ringkasan data.\n⚠️ Gagal export: Kaleido not installed",
          none, none⟩) ∧
    (pipeline envAiExportFailNum (some "d.csv") none none none none =
      Except.ok
        ⟨some (Chart.bar "country" "gdp" "Perbandingan gdp mengikut country" "gdp"),
          some (Chart.line "country" "gdp" "📈 Line Chart gdp vs country" true),
          some (Chart.bar "country" "gdp" "📊 Bar Chart gdp vs country" "gdp"),
          some (Chart.scatter "country" "gdp" "🔍 Scatter Plot gdp vs country"),
          some (Chart.worldChoropleth "country" "country names" "gdp" "🌍 Peta Dunia: gdp"),
          "⚠️ Gagal AI: Connection timeout\n⚠️ Gagal export: Kaleido not installed",
          none, none⟩) :=
  ⟨ export_failure_partial envExportFailNum "d.csv"
      "Kaleido not installed" [⟨"country", false⟩, ⟨"gdp", true⟩]
      (Chart.line "country" "gdp" "📈 Line Chart gdp vs country" true)
      (Chart.bar "country" "gdp" "📊 Bar Chart gdp vs country" "gdp")
      (Chart.scatter "country" "gdp" "🔍 Scatter Plot gdp vs country")
      none none rfl rfl rfl,
   export_failure_partial envAiExportFailNum "d.csv"
      "Kaleido not installed" [⟨"country", false⟩, ⟨"gdp", true⟩]
      (Chart.line "country" "gdp" "📈 Line Chart gdp vs country" true)
      (Chart.bar "country" "gdp" "📊 Bar Chart gdp vs country" "gdp")
      (Chart.scatter "country" "gdp" "🔍 Scatter Plot gdp vs country")
      none none rfl rfl rfl⟩

/-- Witness for C10 at the dataset with columns year (numeric), name
(non-numeric): the only numeric column is the time axis itself, and the
primary chart plots year against year. -/
theorem time_axis_self_plot_witness :
    auto_chart [⟨"year", true⟩, ⟨"name", false⟩] =
      Chart.line "year" "year" "Trend year mengikut year" true :=
  time_axis_self_plot [⟨"year", true⟩, ⟨"name", false⟩] "year" "year" [] []
    rfl rfl

end AizzApp
